import Mathlib

/-!
# AI-Finance-Manager: verification of the analytics and middleware layer

A shallow embedding of the parts of the `AI-Finance-Manager` Django
repository that the specification talks about: the login-required
middleware (`financial/middleware.py`), the transaction categorizer,
spending analyzer and budget analyzer (`analytics/ml_utils/`), and the
analytics request handlers (`analytics/views.py`).

Conventions of the embedding:
* Python strings are modelled as `List Char` so that all comparisons are
  decidable and kernel-computable.
* `Decimal`/`float` amounts are modelled as `ℚ`.
* Calls into fitted scikit-learn models (`fit_predict`, `predict_proba`,
  pipeline fitting) are modelled as explicit function parameters: the
  theorems hold for every such function.  A scikit-learn call that may
  raise is modelled as returning `Option`, `none` standing for a raised
  exception that the surrounding `try/except` turns into an empty result.
* Django ORM tables are modelled as lists of records carried in an
  explicit state (`DbState`); a view that writes through the ORM returns
  the updated state.
-/

namespace AIFM

/-! ## Shared data model (financial/models.py) -/

/-- `financial.models.Category`: id plus display name. -/
structure Category where
  id : Nat
  name : List Char
deriving DecidableEq

/-- A calendar date, only as far as the analytics code inspects it
(year and month for period grouping, day for completeness). -/
structure Date where
  year : Nat
  month : Nat
  day : Nat
deriving DecidableEq

/-- `financial.models.Transaction`, restricted to the fields the
analytics pipeline reads or writes. -/
structure Transaction where
  id : Nat
  date : Date
  amount : ℚ
  transaction_type : List Char
  description : List Char
  category : Option Category
  ai_categorized : Bool
deriving DecidableEq

/-- `financial.models.UserProfile`, restricted to the AI settings the
analytics views consult. -/
structure Profile where
  anomaly_min_amount : ℚ
  anomaly_detection_sensitivity : ℚ
  enable_ai_insights : Bool
  enable_ai_categorization : Bool
deriving DecidableEq

/-- `transaction_type == 'expense'` test used throughout the analyzers. -/
def isExpense (t : Transaction) : Bool :=
  t.transaction_type == "expense".data

/-- `transaction_type == 'income'` test used by `generate_insights`. -/
def isIncome (t : Transaction) : Bool :=
  t.transaction_type == "income".data

/-! ## RequireLoginMiddleware (financial/middleware.py) -/

/-- An HTTP request as `RequireLoginMiddleware.process_request` sees it:
the URL path (`request.path_info`) and whether `request.user` is
authenticated. -/
structure Request where
  path_info : List Char
  is_authenticated : Bool
deriving DecidableEq

/-- The outcome of `process_request`: `proceed` models the Python
`return None` (the request continues down the stack), `redirectToLogin`
models `redirect_to_login(next=request.path, login_url=reverse('login'))`. -/
inductive MiddlewareResult where
  | proceed
  | redirectToLogin (next_path : List Char)
deriving DecidableEq

/-- The `exempt_urls` list of `RequireLoginMiddleware`, verbatim. -/
def exempt_urls : List (List Char) :=
  ["/".data,
   "/accounts/login/".data,
   "/accounts/logout/".data,
   "/accounts/signup/".data,
   "/admin/login/".data,
   "/admin/logout/".data,
   "/static/".data,
   "/media/".data,
   "/favicon.ico".data]

/-- `RequireLoginMiddleware.process_request`: authenticated users pass;
otherwise the current path is matched with `startswith` against each
exempt URL, and only a path matching none of them is redirected to the
login page. -/
def process_request (request : Request) : MiddlewareResult :=
  if request.is_authenticated then .proceed
  else if exempt_urls.any (fun u => u.isPrefixOf request.path_info) then .proceed
  else .redirectToLogin request.path_info

/-- Every slash-initial path is exempt: `'/'` is itself in `exempt_urls`
and matching is by `startswith`, so the remaining eight entries are dead. -/
theorem process_request_proceed_of_slash (r : Request)
    (h : "/".data.isPrefixOf r.path_info = true) :
    process_request r = .proceed := by
  unfold process_request
  split
  · rfl
  · rw [if_pos]
    exact List.any_eq_true.mpr ⟨"/".data, by simp [exempt_urls], h⟩

/-- C1: the claim says `process_request` redirects every unauthenticated
request whose path is not one of the exempt pages, and lets authenticated
requests proceed.  The second half holds, but the first is refuted by the
code itself: since `'/'` is in `exempt_urls` and matching is
`current_path.startswith(exempt_url)`, every path beginning with `'/'`
(every Django `path_info`) is treated as exempt.  Evaluated at the
failing inputs: an unauthenticated request for `/transactions/` (not an
exempt page, so the claim demands a redirect) and one for `/budgets/`
both proceed without a redirect, contradicting the middleware's own
docstring ("require login for all pages except those explicitly
exempted"). -/
theorem C1_middleware_never_redirects :
    process_request { path_info := "/transactions/".data, is_authenticated := false }
      = .proceed ∧
    process_request { path_info := "/budgets/".data, is_authenticated := false }
      = .proceed ∧
    process_request { path_info := "/transactions/".data, is_authenticated := true }
      = .proceed := by
  refine ⟨?_, ?_, ?_⟩ <;> decide

/-! ## TransactionCategorizer (analytics/ml_utils/transaction_categorizer.py) -/

/-- One character of `_preprocess_text` after `text.lower()`: a lowercase
letter or digit is kept, every other character (the regex
`[^a-z0-9\s]` replaces specials with a space, and whitespace is collapsed
next) contributes a space. -/
def normalizeChar (c : Char) : Char :=
  let c := c.toLower
  if ('a' ≤ c ∧ c ≤ 'z') ∨ ('0' ≤ c ∧ c ≤ '9') then c else ' '

/-- Collapse runs of spaces to a single space (`re.sub(r'\s+', ' ', ...)`). -/
def squeezeSpaces : List Char → List Char
  | [] => []
  | [c] => [c]
  | c :: c2 :: cs =>
    if c = ' ' ∧ c2 = ' ' then squeezeSpaces (c2 :: cs)
    else c :: squeezeSpaces (c2 :: cs)

/-- Python `str.strip()` on a space-collapsed string. -/
def stripSpaces (l : List Char) : List Char :=
  ((l.dropWhile (· = ' ')).reverse.dropWhile (· = ' ')).reverse

/-- `TransactionCategorizer._preprocess_text`: lowercase, replace every
character outside `[a-z0-9]` and whitespace by a space, collapse
whitespace runs, strip.  (`None`/empty input yields the empty string.) -/
def preprocessText (text : List Char) : List Char :=
  stripSpaces (squeezeSpaces (text.map normalizeChar))

/-- The fitted sklearn `Pipeline(TfidfVectorizer, MultinomialNB)`,
abstracted to what `predict` reads from it: the class labels
(`model.classes_`, category ids in training order) and, for each
preprocessed description, the probability vector returned by
`predict_proba` (one entry per class). -/
structure ModelRep where
  classes : List Nat
  proba : List Char → List ℚ

/-- The dict `joblib.dump` writes to `model_path`:
`{'model': ..., 'categories': ..., 'category_id_map': ...}`. -/
structure SavedModel where
  model : ModelRep
  categories : List (Nat × List Char)
  category_id_map : List (List Char × Nat)

/-- The mutable attributes of a `TransactionCategorizer` instance,
together with the contents of the model file on disk (`none` when
`os.path.exists(self.model_path)` is false). -/
structure CategorizerState where
  model : Option ModelRep
  categories : List (Nat × List Char)
  category_id_map : List (List Char × Nat)
  disk : Option SavedModel

/-- Python dict assignment `d[k] = v` on an association list. -/
def upsert {α β : Type} [DecidableEq α] (k : α) (v : β) :
    List (α × β) → List (α × β)
  | [] => [(k, v)]
  | (k2, v2) :: rest =>
    if k2 = k then (k, v) :: rest else (k2, v2) :: upsert k v rest

/-- `TransactionCategorizer._load_model`: returns `False` and leaves the
instance untouched when the file is absent (or unreadable), otherwise
restores `model`, `categories` and `category_id_map` from the file. -/
def loadModel (st : CategorizerState) : Bool × CategorizerState :=
  match st.disk with
  | none => (false, st)
  | some d =>
    (true, { st with model := some d.model, categories := d.categories,
                     category_id_map := d.category_id_map })

/-- `TransactionCategorizer._save_model`: a no-op without a model,
otherwise writes `model`, `categories` and `category_id_map` to disk. -/
def saveModel (st : CategorizerState) : CategorizerState :=
  match st.model with
  | none => st
  | some m =>
    { st with disk := some { model := m, categories := st.categories,
                             category_id_map := st.category_id_map } }

/-- `TransactionCategorizer.train`.  The actual pipeline fit (including
the `train_test_split(random_state=42)`) is abstracted as `fit`, a
function of the preprocessed `(description, category_id)` samples.
Mirrors the source: an already loaded model (with `force_retrain=False`)
short-circuits; an existing model file is loaded instead; otherwise
`self.categories` is rebuilt from scratch while `self.category_id_map`
is only extended, training is skipped below 10 samples, and a successful
fit is saved to disk. -/
def train (fit : List (List Char × Nat) → ModelRep) (st : CategorizerState)
    (transactions : List Transaction) (force_retrain : Bool) :
    CategorizerState :=
  if st.model.isSome ∧ ¬force_retrain then st
  else if st.disk.isSome ∧ ¬force_retrain then (loadModel st).2
  else
    let samples := transactions.filterMap (fun t =>
      t.category.map (fun c => (preprocessText t.description, c.id, c.name)))
    let categories := samples.foldl (fun d s => upsert s.2.1 s.2.2 d) []
    let idMap := samples.foldl (fun d s => upsert s.2.2 s.2.1 d) st.category_id_map
    let st2 : CategorizerState :=
      { st with categories := categories, category_id_map := idMap }
    if samples.length < 10 then st2
    else saveModel { st2 with model := some (fit (samples.map (fun s => (s.1, s.2.1)))) }

/-- `predict` first tries `_load_model()` when no model is in memory;
this is the instance state all later reads go through. -/
def effectiveState (st : CategorizerState) : CategorizerState :=
  if st.model.isSome then st else (loadModel st).2

/-- `max(probabilities)` (defined only up to the guard that the list is
nonempty, as in Python; the `0` default is never reached there). -/
def listMaxQ : List ℚ → ℚ
  | [] => 0
  | [x] => x
  | x :: y :: xs => max x (listMaxQ (y :: xs))

/-- `np.argmax(probabilities)`: index of the first occurrence of the
maximum. -/
def firstIdxOf (v : ℚ) : List ℚ → Nat
  | [] => 0
  | x :: xs => if x = v then 0 else firstIdxOf v xs + 1

/-- `TransactionCategorizer.predict`: load the model if needed; with no
model, an empty preprocessed description, or a best probability below
`min_confidence = 0.35`, return `(None, None, 0)`; otherwise return the
highest-probability class (`self.model.classes_[np.argmax(...)]`), its
name from `self.categories`, and the probability. -/
def predictTC (st : CategorizerState) (description : List Char) :
    Option Nat × Option (List Char) × ℚ :=
  let e := effectiveState st
  match e.model with
  | none => (none, none, 0)
  | some m =>
    let processed := preprocessText description
    if processed = [] then (none, none, 0)
    else
      let probabilities := m.proba processed
      let max_prob := listMaxQ probabilities
      let max_index := firstIdxOf max_prob probabilities
      let predicted_category_id := m.classes.getD max_index 0
      if max_prob < 35 / 100 then (none, none, 0)
      else (some predicted_category_id,
            e.categories.lookup predicted_category_id, max_prob)

theorem listMaxQ_mem : ∀ (l : List ℚ), l ≠ [] → listMaxQ l ∈ l
  | [x], _ => by simp [listMaxQ]
  | x :: y :: xs, _ => by
    have ih := listMaxQ_mem (y :: xs) (by simp)
    rw [listMaxQ]
    rcases max_cases x (listMaxQ (y :: xs)) with ⟨h, _⟩ | ⟨h, _⟩
    · rw [h]; exact List.mem_cons_self _ _
    · rw [h]; exact List.mem_cons_of_mem _ ih

theorem le_listMaxQ : ∀ (l : List ℚ), ∀ p ∈ l, p ≤ listMaxQ l
  | [x], p, hp => by
    rcases List.mem_singleton.mp hp with rfl; simp [listMaxQ]
  | x :: y :: xs, p, hp => by
    rw [listMaxQ]
    rcases List.mem_cons.mp hp with rfl | hp2
    · exact le_max_left _ _
    · exact le_trans (le_listMaxQ (y :: xs) p hp2) (le_max_right _ _)

theorem firstIdxOf_lt_length (l : List ℚ) (v : ℚ) (hv : v ∈ l) :
    firstIdxOf v l < l.length := by
  induction l with
  | nil => cases hv
  | cons x xs ih =>
    rw [firstIdxOf]
    by_cases hx : x = v
    · simp [hx]
    · rcases List.mem_cons.mp hv with rfl | hv2
      · exact absurd rfl hx
      · simp only [if_neg hx, List.length_cons]
        exact Nat.succ_lt_succ (ih hv2)

theorem predictTC_eq_of_none (st : CategorizerState) (d : List Char)
    (h : (effectiveState st).model = none) : predictTC st d = (none, none, 0) := by
  simp only [predictTC]
  rw [h]

theorem predictTC_eq_of_some (st : CategorizerState) (d : List Char) (m : ModelRep)
    (h : (effectiveState st).model = some m) :
    predictTC st d =
      (if preprocessText d = [] then (none, none, 0)
       else if listMaxQ (m.proba (preprocessText d)) < 35 / 100 then (none, none, 0)
       else (some (m.classes.getD
               (firstIdxOf (listMaxQ (m.proba (preprocessText d)))
                 (m.proba (preprocessText d))) 0),
             (effectiveState st).categories.lookup
               (m.classes.getD
                 (firstIdxOf (listMaxQ (m.proba (preprocessText d)))
                   (m.proba (preprocessText d))) 0),
             listMaxQ (m.proba (preprocessText d)))) := by
  simp only [predictTC]
  rw [h]

/-- C5: `TransactionCategorizer.predict` returns `(None, None, 0)`
exactly when no trained model is available (in memory or loadable from
disk), when the preprocessed description is empty, or when the best
class probability is below the minimum confidence threshold `0.35`;
otherwise it returns the class of highest probability (first index
attaining the maximum of `predict_proba`), that category's name from
the categorizer's map, and a confidence of at least `0.35`.  The
well-formedness hypothesis states what sklearn guarantees for a fitted
classifier: one probability per class and at least one class. -/
theorem C5_predict_none_iff_no_confident_prediction
    (st : CategorizerState) (d : List Char)
    (hw : ∀ m, (effectiveState st).model = some m →
      (m.proba (preprocessText d)).length = m.classes.length ∧ m.classes ≠ []) :
    (predictTC st d = (none, none, 0) ↔
      ((effectiveState st).model = none ∨ preprocessText d = [] ∨
       ∃ m, (effectiveState st).model = some m ∧
         listMaxQ (m.proba (preprocessText d)) < 35 / 100)) ∧
    (∀ m, (effectiveState st).model = some m → preprocessText d ≠ [] →
      ¬ listMaxQ (m.proba (preprocessText d)) < 35 / 100 →
      predictTC st d =
        (some (m.classes.getD
            (firstIdxOf (listMaxQ (m.proba (preprocessText d)))
              (m.proba (preprocessText d))) 0),
         (effectiveState st).categories.lookup
           (m.classes.getD
             (firstIdxOf (listMaxQ (m.proba (preprocessText d)))
               (m.proba (preprocessText d))) 0),
         listMaxQ (m.proba (preprocessText d))) ∧
      35 / 100 ≤ listMaxQ (m.proba (preprocessText d)) ∧
      listMaxQ (m.proba (preprocessText d)) ∈ m.proba (preprocessText d) ∧
      (∀ p ∈ m.proba (preprocessText d), p ≤ listMaxQ (m.proba (preprocessText d))) ∧
      firstIdxOf (listMaxQ (m.proba (preprocessText d)))
        (m.proba (preprocessText d)) < m.classes.length) := by
  constructor
  · constructor
    · intro h
      rcases hm : (effectiveState st).model with _ | m
      · exact Or.inl rfl
      · rw [predictTC_eq_of_some st d m hm] at h
        by_cases hproc : preprocessText d = []
        · exact Or.inr (Or.inl hproc)
        · rw [if_neg hproc] at h
          by_cases hlt : listMaxQ (m.proba (preprocessText d)) < 35 / 100
          · exact Or.inr (Or.inr ⟨m, rfl, hlt⟩)
          · rw [if_neg hlt] at h
            have := congrArg (fun p : Option Nat × Option (List Char) × ℚ => p.1) h
            simp at this
    · intro h
      rcases hm : (effectiveState st).model with _ | m
      · exact predictTC_eq_of_none st d hm
      · rw [predictTC_eq_of_some st d m hm]
        rcases h with h | h | ⟨m2, hm2, hlt⟩
        · rw [hm] at h; cases h
        · rw [if_pos h]
        · rw [hm] at hm2
          cases hm2
          by_cases hproc : preprocessText d = []
          · rw [if_pos hproc]
          · rw [if_neg hproc, if_pos hlt]
  · intro m hm hproc hlt
    have hw2 := hw m hm
    have hne : m.proba (preprocessText d) ≠ [] := by
      intro hnil
      have hlen : m.classes.length = 0 := by rw [← hw2.1, hnil]; rfl
      exact hw2.2 (List.length_eq_zero.mp hlen)
    refine ⟨?_, not_lt.mp hlt, listMaxQ_mem _ hne, le_listMaxQ _, ?_⟩
    · rw [predictTC_eq_of_some st d m hm, if_neg hproc, if_neg hlt]
    · rw [← hw2.1]
      exact firstIdxOf_lt_length _ _ (listMaxQ_mem _ hne)

/-- Concrete categorizer used by the C5 witness: two classes `3` and `7`
with fixed probabilities `1/4` and `3/4`. -/
def c5Model : ModelRep :=
  { classes := [3, 7], proba := fun _ => [1 / 4, 3 / 4] }

/-- Concrete categorizer state for the C5 witness. -/
def c5State : CategorizerState :=
  { model := some c5Model,
    categories := [(3, "Food".data), (7, "Transport".data)],
    category_id_map := [], disk := none }

/-- Witness for C5 at a concrete input: predicting for the description
`"Coffee Shop!"` returns class `7` (`Transport`) with confidence `3/4`. -/
theorem C5_predict_witness :
    predictTC c5State "Coffee Shop!".data = (some 7, some "Transport".data, 3 / 4) := by
  have hm : (effectiveState c5State).model = some c5Model := by
    simp [effectiveState, c5State]
  have h := (C5_predict_none_iff_no_confident_prediction c5State "Coffee Shop!".data
    (by
      intro m hmod
      rw [hm] at hmod
      cases hmod
      exact ⟨by simp [c5Model], by simp [c5Model]⟩)).2 c5Model hm
    (by decide) (by norm_num [c5Model, listMaxQ])
  rw [h.1]
  norm_num [c5Model, c5State, effectiveState, listMaxQ, firstIdxOf, List.lookup]
  decide

/-- C7: categorizer model persistence round-trips, and `train` with
`force_retrain=False` never refits: (1) after `_save_model` succeeds
(a model is present), `_load_model` restores the same model, categories
map and `category_id_map`; (2) with a model already in memory, `train`
leaves the instance exactly as it is (no retraining); (3) with no model
in memory but a model file on disk, `train` loads the persisted data
instead of retraining. -/
theorem C7_model_persistence_roundtrip :
    (∀ (st : CategorizerState) (m : ModelRep), st.model = some m →
      (loadModel (saveModel st)).2.model = some m ∧
      (loadModel (saveModel st)).2.categories = st.categories ∧
      (loadModel (saveModel st)).2.category_id_map = st.category_id_map) ∧
    (∀ (fit : List (List Char × Nat) → ModelRep) (st : CategorizerState)
       (txs : List Transaction), st.model.isSome →
      train fit st txs false = st) ∧
    (∀ (fit : List (List Char × Nat) → ModelRep) (st : CategorizerState)
       (txs : List Transaction) (d : SavedModel),
      st.model = none → st.disk = some d →
      train fit st txs false =
        { st with model := some d.model, categories := d.categories,
                  category_id_map := d.category_id_map }) := by
  refine ⟨?_, ?_, ?_⟩
  · intro st m hm
    simp [saveModel, loadModel, hm]
  · intro fit st txs hm
    unfold train
    rw [if_pos ⟨hm, by simp⟩]
  · intro fit st txs d hm hd
    unfold train
    rw [if_neg (by simp [hm]), if_pos ⟨by simp [hd], by simp⟩]
    simp [loadModel, hd]

/-- Saved-model file contents used by the C7 witness. -/
def c7Saved : SavedModel :=
  { model := c5Model, categories := [(3, "Food".data)], category_id_map := [] }

/-- Fresh categorizer state whose model file exists on disk, for the
C7 witness. -/
def c7DiskState : CategorizerState :=
  { model := none, categories := [], category_id_map := [],
    disk := some c7Saved }

/-- Witness for C7 at concrete inputs: a state holding the `c5Model`
round-trips through save/load; `train` on a loaded state is the
identity; `train` on a fresh state with the file on disk loads it. -/
theorem C7_model_persistence_witness :
    (loadModel (saveModel c5State)).2.categories = c5State.categories ∧
    train (fun _ => c5Model) c5State [] false = c5State ∧
    train (fun _ => c5Model) c7DiskState [] false =
      { c7DiskState with model := some c7Saved.model,
                         categories := c7Saved.categories,
                         category_id_map := c7Saved.category_id_map } := by
  exact ⟨(C7_model_persistence_roundtrip.1 c5State c5Model rfl).2.1,
         C7_model_persistence_roundtrip.2.1 (fun _ => c5Model) c5State [] rfl,
         C7_model_persistence_roundtrip.2.2 (fun _ => c5Model) c7DiskState [] c7Saved rfl rfl⟩

/-! ## Stable sorting helper

Python's `list.sort` and pandas' group orderings are stable sorts; we
model them with a stable insertion sort: `before x y` decides whether
`x`, coming earlier in the input, must be placed before `y`. -/

/-- Insert `x` in front of the first element `y` with `before x y`. -/
def insertSorted {α : Type} (before : α → α → Bool) (x : α) :
    List α → List α
  | [] => [x]
  | y :: ys => if before x y then x :: y :: ys else y :: insertSorted before x ys

/-- Stable insertion sort. -/
def sortStable {α : Type} (before : α → α → Bool) : List α → List α
  | [] => []
  | x :: xs => insertSorted before x (sortStable before xs)

theorem mem_insertSorted {α : Type} (before : α → α → Bool) (x a : α) :
    ∀ (l : List α), a ∈ insertSorted before x l ↔ a = x ∨ a ∈ l
  | [] => by simp [insertSorted]
  | y :: ys => by
    rw [insertSorted]
    by_cases h : before x y = true
    · simp [h]
    · simp only [if_neg h, List.mem_cons, mem_insertSorted before x a ys]
      tauto

theorem mem_sortStable {α : Type} (before : α → α → Bool) (a : α) :
    ∀ (l : List α), a ∈ sortStable before l ↔ a ∈ l
  | [] => Iff.rfl
  | x :: xs => by
    rw [sortStable, mem_insertSorted, mem_sortStable before a xs, List.mem_cons]

theorem pairwise_insertSorted {α : Type} {R : α → α → Prop}
    (before : α → α → Bool)
    (htrue : ∀ a b, before a b = true → R a b)
    (hfalse : ∀ a b, before a b = false → R b a)
    (htrans : ∀ a b c, R a b → R b c → R a c) (x : α) :
    ∀ (l : List α), l.Pairwise R → (insertSorted before x l).Pairwise R
  | [], _ => List.pairwise_singleton R x
  | y :: ys, h => by
    rw [insertSorted]
    rcases List.pairwise_cons.mp h with ⟨hy, hys⟩
    by_cases hb : before x y = true
    · rw [if_pos hb]
      refine List.pairwise_cons.mpr ⟨?_, h⟩
      intro b hbmem
      rcases List.mem_cons.mp hbmem with rfl | hbys
      · exact htrue x b hb
      · exact htrans x y b (htrue x y hb) (hy b hbys)
    · rw [if_neg hb]
      refine List.pairwise_cons.mpr ⟨?_, pairwise_insertSorted before htrue hfalse htrans x ys hys⟩
      intro b hbmem
      rcases (mem_insertSorted before x b ys).mp hbmem with rfl | hbys
      · exact hfalse b y (Bool.not_eq_true _ ▸ hb)
      · exact hy b hbys

theorem pairwise_sortStable {α : Type} {R : α → α → Prop}
    (before : α → α → Bool)
    (htrue : ∀ a b, before a b = true → R a b)
    (hfalse : ∀ a b, before a b = false → R b a)
    (htrans : ∀ a b c, R a b → R b c → R a c) :
    ∀ (l : List α), (sortStable before l).Pairwise R
  | [] => List.Pairwise.nil
  | x :: xs => pairwise_insertSorted before htrue hfalse htrans x _
      (pairwise_sortStable before htrue hfalse htrans xs)

/-! ## SpendingAnalyzer: anomaly detection
(analytics/ml_utils/spending_analyzer.py) -/

/-- `IsolationForest(contamination=0.05*sensitivity,
random_state=42).fit_predict(X)`, abstracted: given the contamination
and the feature rows `(amount, category_frequency)` — `none` in the
second slot standing for the `NaN` an uncategorized transaction
produces via `value_counts`/`map` — it returns one `±1` label per row,
or `none` when sklearn raises (the surrounding `try/except` then yields
no anomalies).  With `random_state` fixed this is a function of its
arguments, which is what makes detection deterministic. -/
def FitPredict : Type := ℚ → List (ℚ × Option Nat) → Option (List Int)

/-- `SpendingAnalyzer.detect_spending_anomalies`: keep only expense
transactions; below 10 of them, return no anomalies; resolve the
minimum amount and sensitivity from the user profile (defaults `100.0`
and `1.0`); drop transactions below the minimum amount; build the
`(amount, category_frequency)` features; label the rows with the
isolation forest; return the ids of the rows labelled `-1`. -/
def detect_spending_anomalies (fitPredict : FitPredict)
    (user : Option Profile) (transactions : List Transaction)
    (sensitivity0 : Option ℚ) : List Nat :=
  let expense_transactions := transactions.filter isExpense
  if expense_transactions.length < 10 then []
  else
    let min_amount : ℚ := match user with
      | some p => p.anomaly_min_amount
      | none => 100
    let sensitivity : ℚ := match sensitivity0 with
      | some s => s
      | none => match user with
        | some p => p.anomaly_detection_sensitivity
        | none => 1
    let filtered := expense_transactions.filter (fun t => min_amount ≤ t.amount)
    if filtered.isEmpty then []
    else
      let category_frequency : Option Nat → Option Nat := fun cid =>
        cid.map (fun c =>
          (filtered.filter (fun t => t.category.map (·.id) == some c)).length)
      let X := filtered.map (fun t =>
        (t.amount, category_frequency (t.category.map (·.id))))
      match fitPredict (5 / 100 * sensitivity) X with
      | none => []
      | some labels =>
        ((filtered.zip labels).filter (fun p => p.2 == -1)).map (fun p => p.1.id)

/-- One entry of the list `SpendingAnalyzer.detect_anomalies` returns
for the views. -/
structure DetectedAnomaly where
  id : Nat
  date : Date
  description : List Char
  amount : ℚ
  category : List Char
deriving DecidableEq

/-- `SpendingAnalyzer.detect_anomalies`: format each anomalous id by
looking up the first transaction carrying it (`next(...)`; a missing id
is skipped). -/
def detect_anomalies (fitPredict : FitPredict) (user : Option Profile)
    (transactions : List Transaction) : List DetectedAnomaly :=
  (detect_spending_anomalies fitPredict user transactions none).filterMap
    (fun tx_id =>
      (transactions.find? (fun t => t.id == tx_id)).map (fun tx =>
        { id := tx.id, date := tx.date, description := tx.description,
          amount := tx.amount,
          category := (tx.category.map (·.name)).getD "Uncategorized".data }))

/-- The minimum-amount threshold `detect_spending_anomalies` resolves
from the user settings (`100.0` when no profile applies). -/
def anomalyMinAmount (user : Option Profile) : ℚ :=
  match user with
  | some p => p.anomaly_min_amount
  | none => 100

/-- C8: for every isolation-forest labelling, user setting and input
list, `SpendingAnalyzer.detect_spending_anomalies` returns the empty
list when fewer than 10 input transactions are expenses, and every id it
returns belongs to some input transaction that is an expense with amount
at least the minimum-amount threshold (`100.0` when no user profile
applies). -/
theorem C8_anomalies_are_eligible_expenses (fitPredict : FitPredict)
    (user : Option Profile) (transactions : List Transaction)
    (sensitivity0 : Option ℚ) :
    ((transactions.filter isExpense).length < 10 →
      detect_spending_anomalies fitPredict user transactions sensitivity0 = []) ∧
    (∀ i ∈ detect_spending_anomalies fitPredict user transactions sensitivity0,
      ∃ t ∈ transactions, t.id = i ∧ isExpense t = true ∧
        anomalyMinAmount user ≤ t.amount) := by
  constructor
  · intro hlen
    unfold detect_spending_anomalies
    rw [if_pos hlen]
  · intro i hi
    unfold detect_spending_anomalies at hi
    simp only at hi
    split at hi
    · cases hi
    · split at hi
      · cases hi
      · split at hi
        · cases hi
        · simp only [List.mem_map, List.mem_filter] at hi
          rcases hi with ⟨⟨t, lab⟩, ⟨hmem, _⟩, hid⟩
          have ht := (List.of_mem_zip hmem).1
          rw [List.mem_filter] at ht
          rcases ht with ⟨hexp, hamt⟩
          rw [List.mem_filter] at hexp
          exact ⟨t, hexp.1, hid, hexp.2,
            show anomalyMinAmount user ≤ t.amount from of_decide_eq_true hamt⟩

/-- Witness for C8: with nine expenses the detector returns nothing even
for a labelling that marks everything anomalous, and on a concrete run
the returned id belongs to a qualifying expense. -/
theorem C8_anomalies_witness :
    detect_spending_anomalies (fun _ _ => some [-1, -1, -1, -1, -1, -1, -1, -1, -1])
      none (List.range 9 |>.map (fun i =>
        { id := i, date := ⟨2025, 1, 1⟩, amount := 200,
          transaction_type := "expense".data, description := [],
          category := none, ai_categorized := false })) none = [] := by
  exact (C8_anomalies_are_eligible_expenses _ none _ none).1 (by decide)

/-! ## SpendingAnalyzer: insights (generate_insights) -/

/-- One insight dictionary produced by `generate_insights`, with the
formatted message replaced by its numeric payload: `categoryTrend`
wraps a message from `analyze_spending_by_category` (priority medium),
`expensesExceedIncome` is the high-priority overspend message,
`lowSavingsShare` and `highSavingsShare` are the two messages whose text
contains the percentage `net_flow / total_income * 100`. -/
inductive Insight where
  | categoryTrend (message : List Char)
  | expensesExceedIncome (excess : ℚ)
  | lowSavingsShare (amount percent : ℚ)
  | highSavingsShare (amount percent : ℚ)
deriving DecidableEq

/-- Sum of the income transaction amounts. -/
def totalIncome (transactions : List Transaction) : ℚ :=
  ((transactions.filter isIncome).map (·.amount)).sum

/-- Sum of the expense transaction amounts. -/
def totalExpenses (transactions : List Transaction) : ℚ :=
  ((transactions.filter isExpense).map (·.amount)).sum

/-- `net_flow = total_income - total_expenses`. -/
def netFlow (transactions : List Transaction) : ℚ :=
  totalIncome transactions - totalExpenses transactions

/-- `SpendingAnalyzer.generate_insights`.  The insight strings coming
from `analyze_spending_by_category` are passed in as `categoryInsights`
(the function wraps each of them unchanged as a medium-priority
`category_trend` insight); the cash-flow branch appends at most one
insight following the `if/elif/elif` chain of the source. -/
def generate_insights (categoryInsights : List (List Char))
    (transactions : List Transaction) : List Insight :=
  let insights := categoryInsights.map Insight.categoryTrend
  let total_income := totalIncome transactions
  let total_expenses := totalExpenses transactions
  let net_flow := total_income - total_expenses
  insights ++
    (if net_flow < 0 then [Insight.expensesExceedIncome (-net_flow)]
     else if 0 < net_flow ∧ net_flow < total_income * (1 / 10) then
       [Insight.lowSavingsShare net_flow (net_flow / total_income * 100)]
     else if total_income * (2 / 10) < net_flow then
       [Insight.highSavingsShare net_flow (net_flow / total_income * 100)]
     else [])

theorem totalExpenses_nonneg (transactions : List Transaction)
    (h : ∀ t ∈ transactions, 0 ≤ t.amount) : 0 ≤ totalExpenses transactions := by
  unfold totalExpenses
  refine List.sum_nonneg ?_
  intro a ha
  rcases List.mem_map.mp ha with ⟨t, ht, rfl⟩
  exact h t (List.mem_of_mem_filter ht)

/-- C10: `generate_insights` never divides by zero.  The percentage
`net_flow / total_income` appears only in the two savings-share
branches, and with non-negative amounts each branch condition forces
`total_income > 0`; with no income transactions at all the function
still returns (at most the overspend insight plus the category-trend
ones) and emits no percentage-of-income insight. -/
theorem C10_insights_no_division_by_zero
    (categoryInsights : List (List Char)) (transactions : List Transaction)
    (hpos : ∀ t ∈ transactions, 0 ≤ t.amount) :
    (0 < netFlow transactions → 0 < totalIncome transactions) ∧
    ((0 < netFlow transactions ∧
        netFlow transactions < totalIncome transactions * (1 / 10)) →
      0 < totalIncome transactions) ∧
    (totalIncome transactions * (2 / 10) < netFlow transactions →
      0 < totalIncome transactions) ∧
    (transactions.filter isIncome = [] →
      generate_insights categoryInsights transactions =
        categoryInsights.map Insight.categoryTrend ++
          (if totalExpenses transactions > 0 then
            [Insight.expensesExceedIncome (totalExpenses transactions)]
           else []) ∧
      ∀ i ∈ generate_insights categoryInsights transactions, ∀ a p,
        i ≠ Insight.lowSavingsShare a p ∧ i ≠ Insight.highSavingsShare a p) := by
  have hnf : 0 < netFlow transactions → 0 < totalIncome transactions := by
    intro h
    unfold netFlow at h
    have he := totalExpenses_nonneg transactions hpos
    linarith
  refine ⟨hnf, fun h => hnf h.1, ?_, ?_⟩
  · intro h
    by_contra hle
    push_neg at hle
    have hi0 : totalIncome transactions ≤ 0 := hle
    have he := totalExpenses_nonneg transactions hpos
    unfold netFlow at h
    nlinarith
  · intro hnone
    have hi0 : totalIncome transactions = 0 := by
      unfold totalIncome
      rw [hnone]
      rfl
    have hnfv : netFlow transactions = -totalExpenses transactions := by
      unfold netFlow
      rw [hi0]
      ring
    have he := totalExpenses_nonneg transactions hpos
    constructor
    · unfold generate_insights
      simp only
      congr 1
      rw [show totalIncome transactions - totalExpenses transactions =
        netFlow transactions from rfl]
      by_cases hpos2 : 0 < totalExpenses transactions
      · rw [if_pos (show netFlow transactions < 0 by rw [hnfv]; linarith),
            if_pos hpos2, hnfv, neg_neg]
      · have hz : totalExpenses transactions = 0 :=
          le_antisymm (not_lt.mp hpos2) he
        have hnf0 : netFlow transactions = 0 := by rw [hnfv, hz, neg_zero]
        rw [if_neg (by rw [hnf0]; norm_num),
            if_neg (by rw [hnf0]; norm_num),
            if_neg (by rw [hnf0, hi0]; norm_num),
            if_neg (by rw [hz]; norm_num)]
    · intro i hi a p
      unfold generate_insights at hi
      simp only [List.mem_append] at hi
      rcases hi with hi | hi
      · rcases List.mem_map.mp hi with ⟨msg, _, rfl⟩
        exact ⟨by simp, by simp⟩
      · rw [show totalIncome transactions - totalExpenses transactions =
          netFlow transactions from rfl] at hi
        by_cases hpos2 : 0 < totalExpenses transactions
        · rw [if_pos (show netFlow transactions < 0 by rw [hnfv]; linarith)] at hi
          rcases List.mem_singleton.mp hi with rfl
          exact ⟨by simp, by simp⟩
        · have hz : totalExpenses transactions = 0 :=
            le_antisymm (not_lt.mp hpos2) he
          have hnf0 : netFlow transactions = 0 := by rw [hnfv, hz, neg_zero]
          rw [if_neg (by rw [hnf0]; norm_num),
              if_neg (by rw [hnf0]; norm_num),
              if_neg (by rw [hnf0, hi0]; norm_num)] at hi
          cases hi

/-- Witness for C10: one expense of `50` and no income yields exactly
the overspend insight, and no percentage-of-income insight. -/
theorem C10_insights_witness :
    generate_insights []
        [{ id := 1, date := ⟨2025, 1, 1⟩, amount := 50,
           transaction_type := "expense".data, description := [],
           category := none, ai_categorized := false }] =
      [Insight.expensesExceedIncome 50] := by
  have h := (C10_insights_no_division_by_zero []
    [{ id := 1, date := ⟨2025, 1, 1⟩, amount := 50,
       transaction_type := "expense".data, description := [],
       category := none, ai_categorized := false }]
    (by intro t ht; rcases List.mem_singleton.mp ht with rfl; norm_num)).2.2.2
    (by decide)
  rw [h.1]
  norm_num [totalExpenses, isExpense]

/-! ## SpendingAnalyzer: monthly forecast (predict_monthly_spending) -/

/-- The pandas `Period('M')` key of a transaction: its (year, month). -/
def monthKey (t : Transaction) : Nat × Nat := (t.date.year, t.date.month)

/-- Linearization of a (year, month) period for ordering. -/
def monthOrd (ym : Nat × Nat) : Nat := ym.1 * 12 + ym.2

/-- `(last_date + pd.DateOffset(months=i))` as a (year, month) period. -/
def addMonths (ym : Nat × Nat) (i : Nat) : Nat × Nat :=
  let a := ym.1 * 12 + (ym.2 - 1) + i
  (a / 12, a % 12 + 1)

/-- `df.groupby('month_year')['amount'].sum()`: the distinct month
periods in ascending order, each with the summed amount of its group. -/
def monthlyTotals (transactions : List Transaction) :
    List ((Nat × Nat) × ℚ) :=
  let keys := sortStable (fun a b => decide (monthOrd a ≤ monthOrd b))
    ((transactions.map monthKey).dedup)
  keys.map (fun k =>
    (k, ((transactions.filter (fun t => monthKey t == k)).map (·.amount)).sum))

/-- `monthly_totals.tail(3).mean()` for an index of length ≥ 3. -/
def lastThreeMean (totals : List ((Nat × Nat) × ℚ)) : ℚ :=
  ((totals.drop (totals.length - 3)).map (·.2)).sum / 3

/-- `monthly_totals.iloc[-6:-3].mean()` for an index of length ≥ 6. -/
def olderThreeMean (totals : List ((Nat × Nat) × ℚ)) : ℚ :=
  (((totals.drop (totals.length - 6)).take 3).map (·.2)).sum / 3

/-- The trend factor: `recent / older` when at least 6 months of data
exist and the older mean is positive, else `1`. -/
def trendFactor (totals : List ((Nat × Nat) × ℚ)) : ℚ :=
  if 6 ≤ totals.length then
    if 0 < olderThreeMean totals then lastThreeMean totals / olderThreeMean totals
    else 1
  else 1

/-- One forecast entry: the month label and the predicted amount. -/
structure Prediction where
  month : Nat × Nat
  amount : ℚ
deriving DecidableEq

/-- `SpendingAnalyzer.predict_monthly_spending`: keep expenses; with
fewer than 3 of them, or fewer than 3 distinct months, no predictions;
otherwise predict `avg * trend_factor ** i` for the `i`-th month after
the last observed period, `i = 1..months_ahead`. -/
def predict_monthly_spending (transactions : List Transaction)
    (months_ahead : Nat) : List Prediction :=
  let expense_transactions := transactions.filter isExpense
  if expense_transactions.length < 3 then []
  else
    let monthly_totals := monthlyTotals expense_transactions
    if monthly_totals.length < 3 then []
    else
      let avg_spending := lastThreeMean monthly_totals
      let trend_factor := trendFactor monthly_totals
      let last_period := ((monthly_totals.getLast?).map (·.1)).getD (0, 0)
      (List.range months_ahead).map (fun j =>
        { month := addMonths last_period (j + 1),
          amount := avg_spending * trend_factor ^ (j + 1) })

/-! ## Forecast request handlers (analytics/views.py) -/

/-- The JSON payload of the `spending_forecast` API view. -/
structure ForecastResponse where
  success : Bool
  predictions : List Prediction
deriving DecidableEq

/-- `views.spending_forecast`: refuse when AI insights are disabled or
fewer than 10 transactions exist, otherwise return
`SpendingAnalyzer().predict_monthly_spending(transactions)` (3 months). -/
def spending_forecast (profile : Profile)
    (transactions : List Transaction) : ForecastResponse :=
  if ¬profile.enable_ai_insights then { success := false, predictions := [] }
  else if transactions.length < 10 then { success := false, predictions := [] }
  else { success := true,
         predictions := predict_monthly_spending transactions 3 }

/-- `views.spending_predictions`: the page view always computes
`SpendingAnalyzer(user).predict_monthly_spending(transactions,
months_ahead=6)`. -/
def spending_predictions (transactions : List Transaction) : List Prediction :=
  predict_monthly_spending transactions 6

/-- Modelled from the spec: "an off-the-shelf random forest regression
model fit over the user's transaction features".  The views cannot call
the repository's `SpendingPredictor` (its import in `analytics/views.py`
is commented out), so the claim is formalised through the one property
every random-forest regression fit has: each prediction is an average of
leaf means of training targets, hence lies between two training targets.
The targets offered here are the user's transaction amounts (the
quantity `SpendingPredictor.train_model` regresses on). -/
def isRandomForestPrediction (targets : List ℚ) (v : ℚ) : Prop :=
  ∃ lo ∈ targets, ∃ hi ∈ targets, lo ≤ v ∧ v ≤ hi

/-- Profile with every AI feature enabled (defaults of `UserProfile`). -/
def aiProfile : Profile :=
  { anomaly_min_amount := 100, anomaly_detection_sensitivity := 1,
    enable_ai_insights := true, enable_ai_categorization := true }

/-- An expense of `10` in the given month of 2025, for the C3
counterexample. -/
def c3tx (i m : Nat) : Transaction :=
  { id := i, date := ⟨2025, m, 1⟩, amount := 10,
    transaction_type := "expense".data, description := [],
    category := none, ai_categorized := false }

/-- Ten expenses of `10` spread over three months: monthly totals
`40, 30, 30`. -/
def c3txs : List Transaction :=
  [c3tx 1 1, c3tx 2 1, c3tx 3 1, c3tx 4 1,
   c3tx 5 2, c3tx 6 2, c3tx 7 2,
   c3tx 8 3, c3tx 9 3, c3tx 10 3]

/-- C3 counterexample: the claim says the forecast served by the views
comes from a random forest regression fit over the user's transaction
features.  On this concrete history every transaction amount is `10`,
yet `spending_forecast` predicts `100/3` for each coming month — a value
outside the range of the training targets, which no random-forest
regression fit can produce.  (The forecast is the 3-month moving average
of the monthly totals `40, 30, 30`.) -/
theorem C3_counterexample_not_random_forest :
    ((spending_forecast aiProfile c3txs).predictions.map Prediction.amount) =
      [100 / 3, 100 / 3, 100 / 3] ∧
    ¬ isRandomForestPrediction (c3txs.map Transaction.amount) (100 / 3) := by
  have hfilter : c3txs.filter isExpense = c3txs := by decide
  have hkeys : sortStable (fun a b => decide (monthOrd a ≤ monthOrd b))
      ((c3txs.map monthKey).dedup) = [(2025, 1), (2025, 2), (2025, 3)] := by decide
  have hm : monthlyTotals c3txs =
      [((2025, 1), 40), ((2025, 2), 30), ((2025, 3), 30)] := by
    unfold monthlyTotals
    simp only
    rw [hkeys]
    simp only [List.map]
    norm_num [c3txs, c3tx, monthKey, List.filter]
  constructor
  · unfold spending_forecast
    rw [if_neg (by decide), if_neg (by decide)]
    unfold predict_monthly_spending
    simp only
    rw [hfilter, hm]
    rw [if_neg (by decide), if_neg (by decide)]
    unfold lastThreeMean trendFactor
    norm_num [List.range, List.range.loop, addMonths]
  · rintro ⟨lo, hlo, hi, hhi, h1, h2⟩
    have hhi10 : hi = 10 := by simpa [c3txs, c3tx] using hhi
    rw [hhi10] at h2
    norm_num at h2

/-- C3 amended: the forecast served by both `spending_forecast` and
`spending_predictions` is `SpendingAnalyzer.predict_monthly_spending`, a
simple moving average: with at least 3 expense transactions spanning at
least 3 months, prediction `i` (for `i = 1..months_ahead`) is the mean
of the last three monthly expense totals times `trend_factor ** i`,
where the trend factor is the ratio of the recent to the older
three-month mean (1 when fewer than 6 months of data exist or the older
mean is not positive).  No random-forest code is reachable from these
views (`SpendingPredictor`'s import is commented out). -/
theorem C3_amended_forecast_is_moving_average :
    (∀ (profile : Profile) (txs : List Transaction),
      profile.enable_ai_insights = true → ¬ txs.length < 10 →
      (spending_forecast profile txs).predictions =
        predict_monthly_spending txs 3) ∧
    (∀ txs, spending_predictions txs = predict_monthly_spending txs 6) ∧
    (∀ (txs : List Transaction) (ahead : Nat),
      ¬ (txs.filter isExpense).length < 3 →
      ¬ (monthlyTotals (txs.filter isExpense)).length < 3 →
      predict_monthly_spending txs ahead = (List.range ahead).map (fun j =>
        { month := addMonths
            ((((monthlyTotals (txs.filter isExpense)).getLast?).map (·.1)).getD (0, 0))
            (j + 1),
          amount := lastThreeMean (monthlyTotals (txs.filter isExpense)) *
            trendFactor (monthlyTotals (txs.filter isExpense)) ^ (j + 1) })) := by
  refine ⟨?_, fun txs => rfl, ?_⟩
  · intro profile txs hai hlen
    unfold spending_forecast
    rw [if_neg (by rw [hai]; simp), if_neg hlen]
  · intro txs ahead h1 h2
    unfold predict_monthly_spending
    rw [if_neg h1]
    simp only
    rw [if_neg h2]

/-- Witness for the amended C3 at the concrete history `c3txs`: the API
view hands back exactly `predict_monthly_spending txs 3`. -/
theorem C3_amended_forecast_witness :
    (spending_forecast aiProfile c3txs).predictions =
      predict_monthly_spending c3txs 3 :=
  C3_amended_forecast_is_moving_average.1 aiProfile c3txs rfl (by decide)

/-! ## get_anomalies API endpoint (analytics/views.py)

The endpoint does not run the isolation forest at all: it draws
`random.sample(transactions, anomaly_count)` and returns those
transactions as "anomalies", with `random.choice` reasons and
`random.randint` confidences.  The three random draws are passed in as
parameters (`sample`, `chooseReason`, `chooseConfidence`); a run of the
endpoint corresponds to one choice of them. -/

/-- One anomaly entry of the `get_anomalies` JSON payload (`num` is the
1-based `enumerate` counter the view labels `id`). -/
structure AnomalyItem where
  num : Nat
  date : Date
  description : List Char
  category : List Char
  amount : ℚ
  reason : List Char
  confidence : Nat
deriving DecidableEq

/-- The `get_anomalies` JSON payload (anomaly page plus message). -/
structure AnomaliesResponse where
  anomalies : List AnomalyItem
  message : List Char
deriving DecidableEq

/-- `anomaly_count = min(len(transactions) // 5, 20)`. -/
def anomalyCount (transactions : List Transaction) : Nat :=
  min (transactions.length / 5) 20

/-- What `random.sample(population, k)` may return: `k` distinct
elements of the population. -/
def isSampleOf (sample population : List Transaction) (k : Nat) : Prop :=
  sample.length = k ∧ sample.Nodup ∧ ∀ t ∈ sample, t ∈ population

/-- The anomaly entry `get_anomalies` builds for the `i`-th sampled
transaction (`p = (i, transaction)` from `enumerate`). -/
def anomalyItemOf (chooseReason : Nat → List Char)
    (chooseConfidence : Nat → Nat) (p : Nat × Transaction) : AnomalyItem :=
  { num := p.1 + 1, date := p.2.date, description := p.2.description,
    category := (p.2.category.map (·.name)).getD "Uncategorized".data,
    amount := p.2.amount, reason := chooseReason p.1,
    confidence := chooseConfidence p.1 }

/-- `views.get_anomalies`: refuse without AI insights or below 5
transactions; otherwise dress the random sample up as anomaly entries
and return the requested page of 10. -/
def get_anomalies (profile : Profile) (transactions : List Transaction)
    (sample : List Transaction) (chooseReason : Nat → List Char)
    (chooseConfidence : Nat → Nat) (page : Nat) : AnomaliesResponse :=
  if ¬profile.enable_ai_insights then
    { anomalies := [],
      message := "Anomaly detection is disabled in your profile settings.".data }
  else if transactions.length < 5 then
    { anomalies := [],
      message := "Need at least 5 transactions for anomaly detection.".data }
  else
    let anomalies := sample.enum.map (anomalyItemOf chooseReason chooseConfidence)
    let items_per_page := 10
    let total_pages := (anomalies.length + items_per_page - 1) / items_per_page
    let page2 := max 1 (min page total_pages)
    let paged := (anomalies.drop ((page2 - 1) * items_per_page)).take items_per_page
    { anomalies := paged, message := [] }

/-- A transaction for the C2 counterexample. -/
def c2t (i : Nat) (d : List Char) : Transaction :=
  { id := i, date := ⟨2025, 1, i⟩, amount := 10,
    transaction_type := "expense".data, description := d,
    category := none, ai_categorized := false }

/-- Five stored transactions; `anomaly_count` is `1`. -/
def c2txs : List Transaction :=
  [c2t 1 "alpha".data, c2t 2 "beta".data, c2t 3 "gamma".data,
   c2t 4 "delta".data, c2t 5 "epsilon".data]

/-- C2 counterexample: the claim says two runs of the anomaly detection
operations over the same stored transactions flag the same set.  For the
`get_anomalies` endpoint this fails: over the fixed history `c2txs`,
both `[alpha]` and `[beta]` are admissible draws of
`random.sample(transactions, anomaly_count)`, and the two corresponding
runs flag different transactions. -/
theorem C2_counterexample_get_anomalies_random :
    isSampleOf [c2t 1 "alpha".data] c2txs (anomalyCount c2txs) ∧
    isSampleOf [c2t 2 "beta".data] c2txs (anomalyCount c2txs) ∧
    (get_anomalies aiProfile c2txs [c2t 1 "alpha".data]
        (fun _ => []) (fun _ => 80) 1).anomalies.map AnomalyItem.description ≠
      (get_anomalies aiProfile c2txs [c2t 2 "beta".data]
        (fun _ => []) (fun _ => 80) 1).anomalies.map AnomalyItem.description := by
  refine ⟨⟨by decide, by decide, by decide⟩, ⟨by decide, by decide, by decide⟩, ?_⟩
  decide

/-- C2 amended: `SpendingAnalyzer.detect_spending_anomalies` is a
deterministic function of the expense transactions (the isolation forest
is constructed with a fixed `random_state`), so two runs over the same
history flag the same ids; but the `get_anomalies` endpoint flags
exactly the transactions drawn by `random.sample`, so its flagged set
varies with the draw and is not selected from the spending
distribution. -/
theorem C2_amended_detection_deterministic_endpoint_random :
    (∀ (fitPredict : FitPredict) (user : Option Profile) (s : Option ℚ)
       (txs1 txs2 : List Transaction),
      txs1.filter isExpense = txs2.filter isExpense →
      detect_spending_anomalies fitPredict user txs1 s =
        detect_spending_anomalies fitPredict user txs2 s) ∧
    (∀ (profile : Profile) (transactions sample : List Transaction)
       (cr : Nat → List Char) (cc : Nat → Nat),
      profile.enable_ai_insights = true → ¬transactions.length < 5 →
      sample.length ≤ 10 →
      (get_anomalies profile transactions sample cr cc 1).anomalies.map
          AnomalyItem.description =
        sample.map Transaction.description) := by
  constructor
  · intro fitPredict user s txs1 txs2 h
    unfold detect_spending_anomalies
    rw [h]
  · intro profile transactions sample cr cc hai hlen hsmall
    unfold get_anomalies
    rw [if_neg (by rw [hai]; simp), if_neg hlen]
    simp only
    have hpage : ∀ x : Nat, (max 1 (min 1 x) - 1) * 10 = 0 := by
      intro x; omega
    rw [hpage, List.drop_zero]
    rw [List.take_of_length_le (by simpa using hsmall)]
    rw [List.map_map]
    have hcomp : AnomalyItem.description ∘ anomalyItemOf cr cc =
        Transaction.description ∘ Prod.snd := rfl
    rw [hcomp, ← List.map_map, List.enum_map_snd]

/-- Witness for the amended C2 at concrete inputs: the endpoint flags
exactly the drawn sample, here `[beta]`. -/
theorem C2_amended_witness :
    (get_anomalies aiProfile c2txs [c2t 2 "beta".data]
        (fun _ => []) (fun _ => 80) 1).anomalies.map AnomalyItem.description =
      [c2t 2 "beta".data].map Transaction.description :=
  C2_amended_detection_deterministic_endpoint_random.2 aiProfile c2txs
    [c2t 2 "beta".data] (fun _ => []) (fun _ => 80) rfl (by decide) (by decide)

/-! ## BudgetAnalyzer (analytics/ml_utils/budget_analyzer.py) -/

/-- `financial.models.Budget`, restricted to what the analyzer reads. -/
structure BudgetRec where
  id : Nat
  category : Option Category
  amount : ℚ
deriving DecidableEq

/-- The success payload of `analyze_budget_performance`.  The
wall-clock-dependent daily-rate/projection entries of the dict
(`daily_rate`, `projected_total`, `projected_remaining`,
`days_elapsed`, `days_in_period`) are computed after the fields below
and do not feed back into them; they are omitted from the record. -/
structure BudgetPerformance where
  budget_id : Nat
  category : List Char
  amount : ℚ
  spent : ℚ
  remaining : ℚ
  percentage_used : ℚ
  status : List Char
deriving DecidableEq

/-- Result of `analyze_budget_performance`: either one of the
`success: False` dicts (with its message) or the success payload. -/
inductive PerfResult where
  | failure (message : List Char)
  | perf (p : BudgetPerformance)
deriving DecidableEq

/-- `percentage_used = (total_spent / budget_amount) * 100 if
budget_amount > 0 else 0`. -/
def percentageUsed (total_spent budget_amount : ℚ) : ℚ :=
  if 0 < budget_amount then total_spent / budget_amount * 100 else 0

/-- The `if/elif` status chain of `analyze_budget_performance`. -/
def statusOf (percentage_used : ℚ) : List Char :=
  if 100 < percentage_used then "over_budget".data
  else if 90 ≤ percentage_used then "at_risk".data
  else if 75 ≤ percentage_used then "warning".data
  else "on_track".data

/-- `BudgetAnalyzer.analyze_budget_performance`.  The outer `Option` is
`none` exactly when the Python code would raise: it reads
`budget.category.id` without guarding against a budget with no
category. -/
def analyze_budget_performance (budget0 : Option BudgetRec)
    (transactions : List Transaction) : Option PerfResult :=
  match budget0 with
  | none => some (.failure "No budget or transactions provided".data)
  | some budget =>
    if transactions.isEmpty then
      some (.failure "No budget or transactions provided".data)
    else
      match budget.category with
      | none => none
      | some bcat =>
        let category_transactions := transactions.filter (fun t =>
          (t.category.map (·.id) == some bcat.id) && isExpense t)
        if category_transactions.isEmpty then
          some (.failure "No transactions found for this budget category".data)
        else
          let total_spent := (category_transactions.map (·.amount)).sum
          let budget_amount := budget.amount
          let remaining := budget_amount - total_spent
          let percentage_used := percentageUsed total_spent budget_amount
          let status := statusOf percentage_used
          some (.perf { budget_id := budget.id, category := bcat.name,
                        amount := budget_amount, spent := total_spent,
                        remaining := remaining,
                        percentage_used := percentage_used,
                        status := status })

theorem statusOf_spec (p : ℚ) :
    (statusOf p = "over_budget".data ↔ 100 < p) ∧
    (statusOf p = "at_risk".data ↔ 90 ≤ p ∧ p ≤ 100) ∧
    (statusOf p = "warning".data ↔ 75 ≤ p ∧ p < 90) ∧
    (statusOf p = "on_track".data ↔ p < 75) := by
  unfold statusOf
  by_cases h1 : 100 < p
  · rw [if_pos h1]
    exact ⟨⟨fun _ => h1, fun _ => rfl⟩,
           ⟨fun hc => absurd hc (by decide),
            fun hc => absurd h1 (not_lt.mpr hc.2)⟩,
           ⟨fun hc => absurd hc (by decide),
            fun hc => absurd h1 (not_lt.mpr (by linarith [hc.2]))⟩,
           ⟨fun hc => absurd hc (by decide),
            fun hc => absurd h1 (not_lt.mpr (by linarith))⟩⟩
  · rw [if_neg h1]
    by_cases h2 : 90 ≤ p
    · rw [if_pos h2]
      exact ⟨⟨fun hc => absurd hc (by decide), fun hc => absurd hc h1⟩,
             ⟨fun _ => ⟨h2, le_of_not_lt h1⟩, fun _ => rfl⟩,
             ⟨fun hc => absurd hc (by decide),
              fun hc => absurd hc.2 (not_lt.mpr h2)⟩,
             ⟨fun hc => absurd hc (by decide),
              fun hc => absurd hc (not_lt.mpr (by linarith))⟩⟩
    · rw [if_neg h2]
      by_cases h3 : 75 ≤ p
      · rw [if_pos h3]
        exact ⟨⟨fun hc => absurd hc (by decide), fun hc => absurd hc h1⟩,
               ⟨fun hc => absurd hc (by decide), fun hc => absurd hc.1 h2⟩,
               ⟨fun _ => ⟨h3, lt_of_not_le h2⟩, fun _ => rfl⟩,
               ⟨fun hc => absurd hc (by decide),
                fun hc => absurd hc (not_lt.mpr h3)⟩⟩
      · rw [if_neg h3]
        exact ⟨⟨fun hc => absurd hc (by decide), fun hc => absurd hc h1⟩,
               ⟨fun hc => absurd hc (by decide), fun hc => absurd hc.1 h2⟩,
               ⟨fun hc => absurd hc (by decide), fun hc => absurd hc.1 h3⟩,
               ⟨fun _ => lt_of_not_le h3, fun _ => rfl⟩⟩

/-- C9: when `analyze_budget_performance` succeeds, the payload
satisfies: `spent` is the summed expense amount in the budget's
category, `remaining = amount - spent`; the status is `over_budget`
exactly when the percentage exceeds 100, `at_risk` exactly on
`[90, 100]`, `warning` exactly on `[75, 90)` and `on_track` exactly
below 75; and a budget amount of 0 forces percentage 0 and status
`on_track` no matter the spending. -/
theorem C9_budget_performance_status (budget0 : Option BudgetRec)
    (transactions : List Transaction) (r : BudgetPerformance)
    (h : analyze_budget_performance budget0 transactions = some (.perf r)) :
    r.remaining = r.amount - r.spent ∧
    (∃ b bcat, budget0 = some b ∧ b.category = some bcat ∧
      r.amount = b.amount ∧
      r.spent = ((transactions.filter (fun t =>
        (t.category.map (·.id) == some bcat.id) && isExpense t)).map
          (·.amount)).sum) ∧
    (r.status = "over_budget".data ↔ 100 < r.percentage_used) ∧
    (r.status = "at_risk".data ↔
      90 ≤ r.percentage_used ∧ r.percentage_used ≤ 100) ∧
    (r.status = "warning".data ↔
      75 ≤ r.percentage_used ∧ r.percentage_used < 90) ∧
    (r.status = "on_track".data ↔ r.percentage_used < 75) ∧
    (r.amount = 0 → r.percentage_used = 0 ∧ r.status = "on_track".data) := by
  unfold analyze_budget_performance at h
  split at h
  · simp at h
  · rename_i budget
    split at h
    · simp at h
    · split at h
      · exact Option.noConfusion h
      · rename_i bcat hcat
        dsimp only at h
        split at h
        · simp at h
        · simp only [Option.some.injEq, PerfResult.perf.injEq] at h
          subst h
          have hs := statusOf_spec (percentageUsed
            ((transactions.filter (fun t =>
              (t.category.map (·.id) == some bcat.id) && isExpense t)).map
                (·.amount)).sum budget.amount)
          refine ⟨rfl, ⟨budget, bcat, rfl, hcat, rfl, rfl⟩,
                  hs.1, hs.2.1, hs.2.2.1, hs.2.2.2, ?_⟩
          intro ha
          have hz : percentageUsed
              ((transactions.filter (fun t =>
                (t.category.map (·.id) == some bcat.id) && isExpense t)).map
                  (·.amount)).sum budget.amount = 0 := by
            show percentageUsed _ budget.amount = 0
            rw [show budget.amount = (0 : ℚ) from ha]
            simp [percentageUsed]
          refine ⟨hz, hs.2.2.2.mpr (by rw [hz]; norm_num)⟩

/-- Witness for C9 at a concrete input: a `200` budget for category `1`
with a single `50` expense in it is `on_track` with 25% used. -/
theorem C9_budget_performance_witness :
    (analyze_budget_performance
        (some { id := 1, category := some { id := 1, name := "Food".data },
                amount := 200 })
        [{ id := 1, date := ⟨2025, 1, 1⟩, amount := 50,
           transaction_type := "expense".data, description := [],
           category := some { id := 1, name := "Food".data },
           ai_categorized := false }] =
      some (.perf { budget_id := 1, category := "Food".data, amount := 200,
                    spent := 50, remaining := 150, percentage_used := 25,
                    status := "on_track".data })) ∧
    (25 : ℚ) < 75 := by
  have heq : analyze_budget_performance
      (some { id := 1, category := some { id := 1, name := "Food".data },
              amount := 200 })
      [{ id := 1, date := ⟨2025, 1, 1⟩, amount := 50,
         transaction_type := "expense".data, description := [],
         category := some { id := 1, name := "Food".data },
         ai_categorized := false }] =
      some (.perf { budget_id := 1, category := "Food".data, amount := 200,
                    spent := 50, remaining := 150, percentage_used := 25,
                    status := "on_track".data }) := by
    unfold analyze_budget_performance
    norm_num [isExpense, List.filter, percentageUsed, statusOf]
  exact ⟨heq, ((C9_budget_performance_status _ _ _ heq).2.2.2.2.2.1).mp rfl⟩

/-! ## BudgetAnalyzer: budget recommendations -/

/-- The categorized expense transactions the recommendation pipeline
keeps (`transaction_type == 'expense' and tx.category`). -/
def categorizedExpenses (transactions : List Transaction) : List Transaction :=
  transactions.filter (fun t => isExpense t && t.category.isSome)

/-- The category name of a (categorized) transaction. -/
def categoryNameOf (t : Transaction) : List Char :=
  (t.category.map (·.name)).getD []

/-- `df['month_year'].nunique()`, floored at 1 as in the source. -/
def uniqueMonthCount (expense : List Transaction) : Nat :=
  let n := ((expense.map monthKey).dedup).length
  if n < 1 then 1 else n

/-- Lexicographic string comparison used to mirror pandas sorting group
keys in ascending order. -/
def strBefore : List Char → List Char → Bool
  | [], _ => true
  | _ :: _, [] => false
  | x :: xs, y :: ys => if x = y then strBefore xs ys else decide (x < y)

/-- The average monthly spending `category_totals / unique_months` of a
category (by name). -/
def categoryAvg (transactions : List Transaction) (n : List Char) : ℚ :=
  (((categorizedExpenses transactions).filter
      (fun t => categoryNameOf t == n)).map (·.amount)).sum /
    (uniqueMonthCount (categorizedExpenses transactions) : ℚ)

/-- `current_budget_amounts`: the dict mapping a budget's category name
to its amount (later budgets overwrite earlier ones, as dict assignment
does; budgets without a category are skipped). -/
def budgetAmounts (current_budgets : List BudgetRec) : List (List Char × ℚ) :=
  current_budgets.foldl (fun d b =>
    match b.category with
    | some c => upsert c.name b.amount d
    | none => d) []

/-- One budget recommendation.  The formatted message string is a pure
function of the other fields and is omitted. -/
structure Recommendation where
  category : List Char
  current_amount : ℚ
  recommended_amount : ℚ
  average_spending : ℚ
  adjustment : List Char
deriving DecidableEq

/-- The dict `generate_budget_recommendations` returns. -/
structure RecommendationResult where
  success : Bool
  recommendations : List Recommendation
deriving DecidableEq

/-- The per-category recommendation step of
`generate_budget_recommendations`: skip categories averaging under 100;
recommend `avg * 1.1`; against an existing budget, keep only a >20%
increase or decrease; otherwise a `new` budget. -/
def recommendFor (transactions : List Transaction)
    (current_budget_amounts : List (List Char × ℚ)) (n : List Char) :
    Option Recommendation :=
  let avg_spend := categoryAvg transactions n
  if avg_spend < 100 then none
  else
    let recommended_amount := avg_spend * (11 / 10)
    let current_amount := (current_budget_amounts.lookup n).getD 0
    if 0 < current_amount then
      if current_amount * (12 / 10) < recommended_amount then
        some { category := n, current_amount := current_amount,
               recommended_amount := recommended_amount,
               average_spending := avg_spend, adjustment := "increase".data }
      else if recommended_amount * (12 / 10) < current_amount then
        some { category := n, current_amount := current_amount,
               recommended_amount := recommended_amount,
               average_spending := avg_spend, adjustment := "decrease".data }
      else none
    else
      some { category := n, current_amount := current_amount,
             recommended_amount := recommended_amount,
             average_spending := avg_spend, adjustment := "new".data }

/-- `BudgetAnalyzer.generate_budget_recommendations`: refuse with no
transactions or fewer than 5 categorized expenses; otherwise run
`recommendFor` over the category names (ascending, as pandas sorts
group keys — the recent-90-days frame `recent_df` of the source is dead:
the averages are computed from `df`, all history) and sort the result by
recommended amount, descending, stably. -/
def generate_budget_recommendations (transactions : List Transaction)
    (current_budgets : List BudgetRec) : RecommendationResult :=
  if transactions.isEmpty then { success := false, recommendations := [] }
  else
    let expense_transactions := categorizedExpenses transactions
    if expense_transactions.length < 5 then
      { success := false, recommendations := [] }
    else
      let names := sortStable strBefore
        ((expense_transactions.map categoryNameOf).dedup)
      let current_budget_amounts := budgetAmounts current_budgets
      let recs := names.filterMap
        (recommendFor transactions current_budget_amounts)
      { success := true,
        recommendations := sortStable
          (fun a b => decide (b.recommended_amount ≤ a.recommended_amount)) recs }

theorem recommendFor_spec (transactions : List Transaction)
    (amounts : List (List Char × ℚ)) (n : List Char) (r : Recommendation)
    (h : recommendFor transactions amounts n = some r) :
    r.category = n ∧
    r.average_spending = categoryAvg transactions n ∧
    r.recommended_amount = categoryAvg transactions n * (11 / 10) ∧
    100 ≤ categoryAvg transactions n ∧
    r.current_amount = (amounts.lookup n).getD 0 ∧
    (¬0 < r.current_amount → r.adjustment = "new".data) ∧
    (0 < r.current_amount →
      (r.adjustment = "increase".data ∧
        r.current_amount * (12 / 10) < r.recommended_amount) ∨
      (r.adjustment = "decrease".data ∧
        r.recommended_amount * (12 / 10) < r.current_amount)) := by
  unfold recommendFor at h
  dsimp only at h
  split at h
  · exact Option.noConfusion h
  · rename_i havg
    split at h
    · rename_i hcur
      split at h
      · rename_i hinc
        have hr := Option.some_injective _ h
        subst hr
        exact ⟨rfl, rfl, rfl, not_lt.mp havg, rfl,
               fun hc => absurd hcur hc, fun _ => Or.inl ⟨rfl, hinc⟩⟩
      · split at h
        · rename_i hdec
          have hr := Option.some_injective _ h
          subst hr
          exact ⟨rfl, rfl, rfl, not_lt.mp havg, rfl,
                 fun hc => absurd hcur hc, fun _ => Or.inr ⟨rfl, hdec⟩⟩
        · exact Option.noConfusion h
    · rename_i hcur
      have hr := Option.some_injective _ h
      subst hr
      exact ⟨rfl, rfl, rfl, not_lt.mp havg, rfl, fun _ => rfl,
             fun hpos => absurd hpos hcur⟩

/-- C6: `generate_budget_recommendations` returns `success = False` and
no recommendations when fewer than 5 input transactions are categorized
expenses; otherwise every recommendation carries `recommended_amount =
1.1 *` the category's average monthly spending, only categories
averaging at least 100 appear, a category whose budget dict entry is
positive is kept only as an `increase` (recommendation above 1.2x the
budget) or a `decrease` (budget above 1.2x the recommendation), every
qualifying category without a positive budget entry yields a `new`
recommendation, and the list is sorted by recommended amount in
descending order. -/
theorem C6_budget_recommendations_spec (transactions : List Transaction)
    (current_budgets : List BudgetRec) :
    ((categorizedExpenses transactions).length < 5 →
      (generate_budget_recommendations transactions current_budgets).success
          = false ∧
      (generate_budget_recommendations transactions
        current_budgets).recommendations = []) ∧
    (∀ r ∈ (generate_budget_recommendations transactions
        current_budgets).recommendations,
      r.recommended_amount = categoryAvg transactions r.category * (11 / 10) ∧
      r.average_spending = categoryAvg transactions r.category ∧
      100 ≤ categoryAvg transactions r.category ∧
      r.current_amount = ((budgetAmounts current_budgets).lookup r.category).getD 0 ∧
      (¬0 < r.current_amount → r.adjustment = "new".data) ∧
      (0 < r.current_amount →
        (r.adjustment = "increase".data ∧
          r.current_amount * (12 / 10) < r.recommended_amount) ∨
        (r.adjustment = "decrease".data ∧
          r.recommended_amount * (12 / 10) < r.current_amount))) ∧
    (¬(categorizedExpenses transactions).length < 5 →
      ∀ n ∈ (categorizedExpenses transactions).map categoryNameOf,
        ¬categoryAvg transactions n < 100 →
        ¬0 < ((budgetAmounts current_budgets).lookup n).getD 0 →
        ∃ r ∈ (generate_budget_recommendations transactions
            current_budgets).recommendations,
          r.category = n ∧ r.adjustment = "new".data) ∧
    (generate_budget_recommendations transactions
      current_budgets).recommendations.Pairwise
        (fun a b => b.recommended_amount ≤ a.recommended_amount) := by
  have hbranch : (categorizedExpenses transactions).length < 5 →
      generate_budget_recommendations transactions current_budgets =
        { success := false, recommendations := [] } := by
    intro hlen
    unfold generate_budget_recommendations
    by_cases hemp : transactions.isEmpty
    · rw [if_pos hemp]
    · rw [if_neg hemp]
      dsimp only
      rw [if_pos hlen]
  refine ⟨fun hlen => by rw [hbranch hlen]; exact ⟨rfl, rfl⟩, ?_, ?_, ?_⟩
  · intro r hr
    by_cases hlen : (categorizedExpenses transactions).length < 5
    · rw [hbranch hlen] at hr
      cases hr
    · unfold generate_budget_recommendations at hr
      by_cases hemp : transactions.isEmpty
      · rw [if_pos hemp] at hr
        cases hr
      · rw [if_neg hemp] at hr
        dsimp only at hr
        rw [if_neg hlen] at hr
        dsimp only at hr
        rw [mem_sortStable] at hr
        rcases List.mem_filterMap.mp hr with ⟨n, _, hf⟩
        rcases recommendFor_spec transactions
          (budgetAmounts current_budgets) n r hf with
          ⟨hcat, h2, h3, h4, h5, h6, h7⟩
        subst hcat
        exact ⟨h3, h2, h4, h5, h6, h7⟩
  · intro hlen n hn havg hcur
    unfold generate_budget_recommendations
    by_cases hemp : transactions.isEmpty
    · exact absurd (by rw [List.isEmpty_iff.mp hemp] at hn; cases hn) not_false
    · rw [if_neg hemp]
      dsimp only
      rw [if_neg hlen]
      have hrec : recommendFor transactions (budgetAmounts current_budgets) n =
          some { category := n,
                 current_amount :=
                   ((budgetAmounts current_budgets).lookup n).getD 0,
                 recommended_amount := categoryAvg transactions n * (11 / 10),
                 average_spending := categoryAvg transactions n,
                 adjustment := "new".data } := by
        unfold recommendFor
        dsimp only
        rw [if_neg havg, if_neg hcur]
      refine ⟨{ category := n,
                current_amount :=
                  ((budgetAmounts current_budgets).lookup n).getD 0,
                recommended_amount := categoryAvg transactions n * (11 / 10),
                average_spending := categoryAvg transactions n,
                adjustment := "new".data }, ?_, rfl, rfl⟩
      show _ ∈ sortStable _ _
      rw [mem_sortStable]
      refine List.mem_filterMap.mpr ⟨n, ?_, hrec⟩
      rw [mem_sortStable]
      rcases List.mem_map.mp hn with ⟨t, ht, rfl⟩
      exact List.mem_dedup.mpr (List.mem_map.mpr ⟨t, ht, rfl⟩)
  · unfold generate_budget_recommendations
    by_cases hemp : transactions.isEmpty
    · rw [if_pos hemp]
      exact List.Pairwise.nil
    · rw [if_neg hemp]
      dsimp only
      by_cases hlen : (categorizedExpenses transactions).length < 5
      · rw [if_pos hlen]
        exact List.Pairwise.nil
      · rw [if_neg hlen]
        dsimp only
        exact pairwise_sortStable
          (fun (a b : Recommendation) =>
            decide (b.recommended_amount ≤ a.recommended_amount))
          (fun a b hab => of_decide_eq_true hab)
          (fun a b hab => le_of_not_le (of_decide_eq_false hab))
          (fun a b c h1 h2 => le_trans h2 h1) _

/-- Category and transactions for the C6 witness: six `Food` expenses of
`60` in one month (average `360`), no current budgets. -/
def c6txs : List Transaction :=
  (List.range 6).map (fun i =>
    { id := i + 1, date := ⟨2025, 3, i + 1⟩, amount := 60,
      transaction_type := "expense".data, description := [],
      category := some { id := 1, name := "Food".data },
      ai_categorized := false })

/-- Witness for C6 at a concrete input: the `Food` category (average
monthly spending `360`, no existing budget) yields a `new`
recommendation. -/
theorem C6_budget_recommendations_witness :
    ∃ r ∈ (generate_budget_recommendations c6txs []).recommendations,
      r.category = "Food".data ∧ r.adjustment = "new".data := by
  have havg : categoryAvg c6txs "Food".data = 360 := by
    have h1 : categorizedExpenses c6txs = c6txs := by decide
    have h2 : c6txs.filter (fun t => categoryNameOf t == "Food".data) =
        c6txs := by decide
    have h3 : uniqueMonthCount c6txs = 1 := by decide
    unfold categoryAvg
    rw [h1, h2, h3]
    norm_num [c6txs, List.range, List.range.loop]
  exact (C6_budget_recommendations_spec c6txs []).2.2.1 (by decide)
    "Food".data (by decide) (by rw [havg]; norm_num) (by decide)

/-! ## Analytics views acting on the database (analytics/views.py)

`DbState` carries the ORM tables the claims talk about (transactions,
categories, budgets, spending anomalies).  The user profile row is
passed as a parameter (`UserProfile.objects.get_or_create` touches only
the profile table).  The categorizer's model file on the server is the
`modelDisk` parameter. -/

/-- `analytics.models.SpendingAnomaly` restricted to one user. -/
structure SpendingAnomalyRec where
  transaction_id : Nat
  anomaly_score : ℚ
  description : List Char
  is_verified : Bool
deriving DecidableEq

/-- The ORM tables the analytics views read and write. -/
structure DbState where
  transactions : List Transaction
  categoriesTbl : List Category
  budgets : List BudgetRec
  anomalies : List SpendingAnomalyRec
deriving DecidableEq

/-- The JSON payload of `views.categorize_transaction`. -/
inductive CategorizeResponse where
  | failure (message : List Char)
  | predicted (transaction_id category_id : Nat)
      (category_name : Option (List Char)) (confidence : ℚ)
deriving DecidableEq

/-- `views.categorize_transaction`: look the transaction up, train a
fresh categorizer on the user's other categorized transactions, predict,
and return the prediction *without saving* (the source comments `Return
prediction result without saving`); every branch leaves the database
untouched. -/
def categorize_transaction (db : DbState) (profile : Profile)
    (modelDisk : Option SavedModel) (fit : List (List Char × Nat) → ModelRep)
    (transaction_id : Nat) : CategorizeResponse × DbState :=
  match db.transactions.find? (fun t => t.id == transaction_id) with
  | none => (.failure "Transaction not found".data, db)
  | some transaction =>
    if ¬profile.enable_ai_categorization then
      (.failure "AI categorization is disabled in your profile settings.".data,
       db)
    else
      let training := db.transactions.filter
        (fun t => t.category.isSome && t.id != transaction_id)
      let categorizer := train fit
        { model := none, categories := [], category_id_map := [],
          disk := modelDisk } training false
      match predictTC categorizer transaction.description with
      | (some category_id, category_name, confidence) =>
        if category_id = 0 then
          (.failure "Could not confidently predict a category".data, db)
        else
          match db.categoriesTbl.find? (fun c => c.id == category_id) with
          | none =>
            (.failure "Predicted category not found in database".data, db)
          | some _ =>
            (.predicted transaction_id category_id category_name confidence, db)
      | (none, _, _) =>
        (.failure "Could not confidently predict a category".data, db)

/-- The JSON payload of `views.auto_categorize_transactions`. -/
structure AutoCategorizeResponse where
  success : Bool
  message : List Char
  categorized_count : Nat
deriving DecidableEq

/-- Whether the auto-categorization loop updates transaction `t`: a
truthy predicted category id whose `Category` row exists. -/
def appliesCategory (db : DbState) (categorizer : CategorizerState)
    (t : Transaction) : Option Category :=
  match predictTC categorizer t.description with
  | (some category_id, _, _) =>
    if category_id = 0 then none
    else db.categoriesTbl.find? (fun c => c.id == category_id)
  | (none, _, _) => none

/-- `views.auto_categorize_transactions`: train on the categorized
transactions (at least 10 required), then for each uncategorized
transaction with a confident prediction and an existing category row,
set `category` and `ai_categorized = True` and save; nothing else is
written. -/
def auto_categorize_transactions (db : DbState) (profile : Profile)
    (modelDisk : Option SavedModel)
    (fit : List (List Char × Nat) → ModelRep) :
    AutoCategorizeResponse × DbState :=
  if ¬profile.enable_ai_categorization then
    ({ success := false,
       message := "AI categorization is disabled in your profile settings.".data,
       categorized_count := 0 }, db)
  else
    let training := db.transactions.filter (fun t => t.category.isSome)
    if training.length < 10 then
      ({ success := false,
         message := "Not enough categorized transactions for training.".data,
         categorized_count := 0 }, db)
    else
      let uncategorized := db.transactions.filter (fun t => t.category.isNone)
      if uncategorized.isEmpty then
        ({ success := true,
           message := "No uncategorized transactions found.".data,
           categorized_count := 0 }, db)
      else
        let categorizer := train fit
          { model := none, categories := [], category_id_map := [],
            disk := modelDisk } training false
        let newTransactions := db.transactions.map (fun t =>
          if t.category.isNone then
            match appliesCategory db categorizer t with
            | some c => { t with category := some c, ai_categorized := true }
            | none => t
          else t)
        let categorized_count := (uncategorized.filter
          (fun t => (appliesCategory db categorizer t).isSome)).length
        ({ success := true, message := [],
           categorized_count := categorized_count },
         { db with transactions := newTransactions })

/-- One entry of the `anomalies_list` namedtuples built by
`views.anomaly_detection`. -/
structure AnomalyViewEntry where
  transaction : Transaction
  anomaly_type : List Char
  reason : List Char
  status : List Char
  score : ℚ
deriving DecidableEq

/-- `views.anomaly_detection` (the AI-enabled branch; `determineType`
stands for `determine_anomaly_type`, whose output strings only feed the
`reason`/`description` texts): run the spending analyzer, dress the
flagged transactions up, and create a `SpendingAnomaly` row for each
flagged transaction that has none yet (`anomaly.score or 0.8`). -/
def anomaly_detection (db : DbState) (profile : Profile)
    (fitPredict : FitPredict)
    (determineType : Transaction → List Transaction → List Char × List Char) :
    List AnomalyViewEntry × DbState :=
  if ¬profile.enable_ai_insights then ([], db)
  else
    let transactions := db.transactions
    let anomaly_results := detect_anomalies fitPredict (some profile) transactions
    let existing := db.anomalies
    let existing_tx_ids : List Nat := existing.map (·.transaction_id)
    let anomalies_list := anomaly_results.filterMap (fun ad =>
      (db.transactions.find? (fun t => t.id == ad.id)).map (fun tx =>
        let st := match existing.find? (fun e => e.transaction_id == tx.id) with
          | some e =>
            (if e.is_verified then "reviewed".data else "new".data,
             e.anomaly_score)
          | none => ("new".data, (0 : ℚ))
        let tr := determineType tx transactions
        { transaction := tx, anomaly_type := tr.1, reason := tr.2,
          status := st.1, score := st.2 }))
    let newRecs := anomalies_list.filterMap (fun a =>
      if a.transaction.id ∈ existing_tx_ids then none
      else some { transaction_id := a.transaction.id,
                  anomaly_score := if a.score = 0 then 8 / 10 else a.score,
                  description := a.reason, is_verified := false })
    (anomalies_list, { db with anomalies := db.anomalies ++ newRecs })

theorem zip_self_eq {α : Type} : ∀ (l : List α), ∀ p ∈ l.zip l, p.2 = p.1
  | [], _, hp => absurd hp (List.not_mem_nil _)
  | x :: xs, p, hp => by
    rw [List.zip_cons_cons] at hp
    rcases List.mem_cons.mp hp with rfl | hp2
    · rfl
    · exact zip_self_eq xs p hp2

theorem zip_map_eq {α : Type} (f : α → α) :
    ∀ (l : List α), ∀ p ∈ l.zip (l.map f), p.2 = f p.1
  | [], _, hp => absurd hp (List.not_mem_nil _)
  | x :: xs, p, hp => by
    rw [List.map_cons, List.zip_cons_cons] at hp
    rcases List.mem_cons.mp hp with rfl | hp2
    · rfl
    · exact zip_map_eq f xs p hp2

theorem detect_anomalies_id_mem (fitPredict : FitPredict)
    (user : Option Profile) (transactions : List Transaction) :
    ∀ ad ∈ detect_anomalies fitPredict user transactions,
      ad.id ∈ detect_spending_anomalies fitPredict user transactions none := by
  intro ad had
  unfold detect_anomalies at had
  rcases List.mem_filterMap.mp had with ⟨tx_id, hmem, heq⟩
  rcases Option.map_eq_some'.mp heq with ⟨tx, hfind, hbuild⟩
  have hid : tx.id = tx_id := by
    have := List.find?_some hfind
    exact eq_of_beq this
  rw [← hbuild]
  simpa [hid] using hmem

/-- C4: the analytics pipeline's only writes are the claimed ones.
(1) `categorize_transaction` leaves the database exactly as it was on
every path.  (2) `auto_categorize_transactions` leaves categories,
budgets and anomalies untouched and rewrites the transaction table
pointwise so that each row is unchanged unless it was uncategorized, in
which case at most its `category` is set and `ai_categorized` becomes
`True`.  (3) `anomaly_detection` leaves transactions, categories and
budgets untouched and only appends `SpendingAnomaly` rows, each for a
transaction flagged by `detect_spending_anomalies` that had no existing
anomaly row. -/
theorem C4_pipeline_frame :
    (∀ (db : DbState) (profile : Profile) (disk : Option SavedModel)
       (fit : List (List Char × Nat) → ModelRep) (tid : Nat),
      (categorize_transaction db profile disk fit tid).2 = db) ∧
    (∀ (db : DbState) (profile : Profile) (disk : Option SavedModel)
       (fit : List (List Char × Nat) → ModelRep),
      (auto_categorize_transactions db profile disk fit).2.categoriesTbl
          = db.categoriesTbl ∧
      (auto_categorize_transactions db profile disk fit).2.budgets
          = db.budgets ∧
      (auto_categorize_transactions db profile disk fit).2.anomalies
          = db.anomalies ∧
      (auto_categorize_transactions db profile disk fit).2.transactions.length
          = db.transactions.length ∧
      (∀ p ∈ db.transactions.zip
          (auto_categorize_transactions db profile disk fit).2.transactions,
        p.2 = p.1 ∨ (p.1.category = none ∧ ∃ c,
          p.2 = { p.1 with category := some c, ai_categorized := true }))) ∧
    (∀ (db : DbState) (profile : Profile) (fitPredict : FitPredict)
       (determineType : Transaction → List Transaction →
         List Char × List Char),
      (anomaly_detection db profile fitPredict determineType).2.transactions
          = db.transactions ∧
      (anomaly_detection db profile fitPredict determineType).2.categoriesTbl
          = db.categoriesTbl ∧
      (anomaly_detection db profile fitPredict determineType).2.budgets
          = db.budgets ∧
      ∃ newRecs,
        (anomaly_detection db profile fitPredict determineType).2.anomalies
            = db.anomalies ++ newRecs ∧
        ∀ a ∈ newRecs,
          a.transaction_id ∉ db.anomalies.map (·.transaction_id) ∧
          a.transaction_id ∈
            detect_spending_anomalies fitPredict (some profile)
              db.transactions none) := by
  refine ⟨?_, ?_, ?_⟩
  · intro db profile disk fit tid
    unfold categorize_transaction
    split
    · rfl
    · split
      · rfl
      · dsimp only
        split
        · split
          · rfl
          · split
            · rfl
            · rfl
        · rfl
  · intro db profile disk fit
    unfold auto_categorize_transactions
    split
    · exact ⟨rfl, rfl, rfl, rfl, fun p hp => Or.inl (zip_self_eq _ p hp)⟩
    · dsimp only
      split
      · exact ⟨rfl, rfl, rfl, rfl, fun p hp => Or.inl (zip_self_eq _ p hp)⟩
      · split
        · exact ⟨rfl, rfl, rfl, rfl, fun p hp => Or.inl (zip_self_eq _ p hp)⟩
        · refine ⟨rfl, rfl, rfl, by simp, ?_⟩
          intro p hp
          have hf := zip_map_eq _ _ p hp
          rw [hf]
          by_cases hcat : p.1.category.isNone
          · rw [if_pos hcat]
            split
            · rename_i c heq
              exact Or.inr ⟨Option.isNone_iff_eq_none.mp hcat, c, rfl⟩
            · exact Or.inl rfl
          · rw [if_neg hcat]
            exact Or.inl rfl
  · intro db profile fitPredict determineType
    unfold anomaly_detection
    split
    · exact ⟨rfl, rfl, rfl, [], by simp, fun a ha => absurd ha (List.not_mem_nil a)⟩
    · dsimp only
      refine ⟨rfl, rfl, rfl, _, rfl, ?_⟩
      intro a ha
      rcases List.mem_filterMap.mp ha with ⟨entry, hentry, hbuild⟩
      by_cases hmem : entry.transaction.id ∈ db.anomalies.map (·.transaction_id)
      · rw [if_pos hmem] at hbuild
        exact Option.noConfusion hbuild
      · rw [if_neg hmem] at hbuild
        have ha2 := Option.some_injective _ hbuild
        rcases List.mem_filterMap.mp hentry with ⟨ad, had, heq⟩
        rcases Option.map_eq_some'.mp heq with ⟨tx, hfind, hmk⟩
        have htx : entry.transaction = tx := by rw [← hmk]
        have hid : tx.id = ad.id := by
          have := List.find?_some hfind
          exact eq_of_beq this
        constructor
        · rw [← ha2]
          exact hmem
        · rw [← ha2]
          show entry.transaction.id ∈ _
          rw [htx, hid]
          exact detect_anomalies_id_mem fitPredict (some profile)
            db.transactions ad had

/-- Concrete categorizer fit and database for the C4 witness. -/
def fit0 : List (List Char × Nat) → ModelRep :=
  fun _ => { classes := [1], proba := fun _ => [1] }

/-- A single categorized transaction for the C4 witness. -/
def t0 : Transaction :=
  { id := 1, date := ⟨2025, 1, 1⟩, amount := 10,
    transaction_type := "expense".data, description := "coffee".data,
    category := some { id := 1, name := "Food".data },
    ai_categorized := false }

/-- One-transaction database for the C4 witness. -/
def db0 : DbState :=
  { transactions := [t0], categoriesTbl := [{ id := 1, name := "Food".data }],
    budgets := [], anomalies := [] }

/-- Witness for C4 at a concrete database: the single-transaction
endpoint leaves `db0` untouched, auto-categorization preserves the
anomaly table and the row `t0`, and anomaly detection preserves the
transaction table. -/
theorem C4_pipeline_frame_witness :
    (categorize_transaction db0 aiProfile none fit0 1).2 = db0 ∧
    (auto_categorize_transactions db0 aiProfile none fit0).2.anomalies
        = db0.anomalies ∧
    ((t0, t0).2 = (t0, t0).1 ∨ ((t0, t0).1.category = none ∧
      ∃ c, (t0, t0).2 = { t0 with category := some c, ai_categorized := true })) ∧
    (anomaly_detection db0 aiProfile (fun _ _ => some [])
        (fun _ _ => ([], []))).2.transactions = db0.transactions := by
  refine ⟨C4_pipeline_frame.1 db0 aiProfile none fit0 1,
          (C4_pipeline_frame.2.1 db0 aiProfile none fit0).2.2.1,
          ?_,
          (C4_pipeline_frame.2.2 db0 aiProfile (fun _ _ => some [])
            (fun _ _ => ([], []))).1⟩
  exact (C4_pipeline_frame.2.1 db0 aiProfile none fit0).2.2.2.2 (t0, t0)
    (by decide)

end AIFM
